import Mathlib

/-!
Verification of the oracle-mcp request-orchestration pipeline
(`dist/index.js`, registered as the `oracle` tool) against its
natural-language specification.

The JavaScript source is shallowly embedded: JavaScript values flowing
through the response extractor are modelled by the inductive `JsVal`;
the retry executor, the sampling broker and the tool handler become pure
Lean functions that additionally record the observable effects the spec
talks about (outbound provider requests, timer arming/cleanup, abort
listener registration/removal, virtual elapsed time of backoff sleeps).
-/

namespace OracleMcp

/-! ## JavaScript value model

`JsVal` models the JSON-like values the provider may return.
JavaScript numbers are modelled as integers: no claim depends on
fractional numeric payloads, and the extractor never reads numeric
values as text.  Object fields are an association list in insertion
order, matching `Object.keys` enumeration order for string keys;
real JavaScript objects never carry duplicate keys.
-/

inductive JsVal where
  | null
  | bool (b : Bool)
  | num (n : Int)
  | str (s : String)
  | arr (xs : List JsVal)
  | obj (fields : List (String × JsVal))

/-- Property access `node[key]` on an object's field list: first match wins
(JavaScript objects have unique keys, so the list is duplicate-free in any
value that models a real object). -/
def lookupField : List (String × JsVal) → String → Option JsVal
  | [], _ => none
  | (k, v) :: rest, key => if k = key then some v else lookupField rest key

/-- `node[key]` when `node` may not be an object: non-objects have no
(relevant) properties, giving `undefined`, modelled as `none`. -/
def getField : JsVal → String → Option JsVal
  | JsVal.obj fs, k => lookupField fs k
  | _, _ => none

/-- The value of `node[key]` when it is a string (`typeof node[key] === "string"`). -/
def lookupStr (fs : List (String × JsVal)) (key : String) : Option String :=
  match lookupField fs key with
  | some (JsVal.str s) => some s
  | _ => none

/-- JavaScript truthiness of a modelled value: `null`/`undefined`, `false`,
`0` and `""` are falsy, everything else (including `[]` and `{}`) is truthy. -/
def jsTruthy : JsVal → Bool
  | JsVal.null => false
  | JsVal.bool b => b
  | JsVal.num n => n != 0
  | JsVal.str s => s != ""
  | JsVal.arr _ => true
  | JsVal.obj _ => true

/-! ## Response Extractor (dist/index.js, `scan` closure, lines 509-563)

Transcription of

```js
const scan = (node) => {
  if (!node) return;
  if (typeof node === "string") { texts.push(node); return; }
  if (Array.isArray(node)) { node.forEach(scan); return; }
  if (typeof node === "object") {
    if (typeof node.text === "string") texts.push(node.text);
    if (node.type === "output_text" && typeof node.text === "string") texts.push(node.text);
    if (node.role === "assistant" && node.content) scan(node.content);
    if (node.message && node.message.role === "assistant") scan(node.message.content);
    for (const k of Object.keys(node)) {
      if (k === "logprobs" || k === "tool" || k === "annotations") continue;
      scan(node[k]);
    }
  }
};
```

`scan v` is the list of strings pushed onto `texts` while scanning `v`,
in push order.  The helpers realise the property lookups followed by a
recursive call (`scan(node.content)`, `scan(node.message.content)`, and
the `Object.keys` loop) as structural recursion over the field list.
Falsy nodes (`null`, `false`, `0`, `""`) are dropped by the `if (!node)`
guard; non-string, non-array, non-object values contribute nothing.
-/

mutual
def scan : JsVal → List String
  | JsVal.null => []
  | JsVal.bool _ => []
  | JsVal.num _ => []
  | JsVal.str s => if s = "" then [] else [s]
  | JsVal.arr xs => scanElems xs
  | JsVal.obj fs =>
      (match lookupStr fs "text" with
       | some t => [t]
       | none => []) ++
      (match lookupField fs "type", lookupStr fs "text" with
       | some (JsVal.str "output_text"), some t => [t]
       | _, _ => []) ++
      (match lookupField fs "role" with
       | some (JsVal.str "assistant") => scanAssistantContent fs
       | _ => []) ++
      scanMessageField fs ++
      scanFields fs

/-- `node.forEach(scan)` over an array. -/
def scanElems : List JsVal → List String
  | [] => []
  | x :: xs => scan x ++ scanElems xs

/-- `if (node.role === "assistant" && node.content) scan(node.content)`:
locate the `content` property and scan it when truthy (the caller has
already established `node.role === "assistant"`). -/
def scanAssistantContent : List (String × JsVal) → List String
  | [] => []
  | (k, v) :: rest =>
      if k = "content" then (if jsTruthy v then scan v else [])
      else scanAssistantContent rest

/-- `if (node.message && node.message.role === "assistant") scan(node.message.content)`:
locate the `message` property; when it is truthy and its `role` is
`"assistant"`, scan its `content` property.  `scan(undefined)` — a missing
`content` — contributes nothing, as does a non-object `message` (whose
`role` is `undefined`). -/
def scanMessageField : List (String × JsVal) → List String
  | [] => []
  | (k, v) :: rest =>
      if k = "message" then
        (if jsTruthy v then
          match v with
          | JsVal.obj gs =>
            (match lookupField gs "role" with
             | some (JsVal.str "assistant") => scanContentOf gs
             | _ => [])
          | _ => []
         else [])
      else scanMessageField rest

/-- `scan(node.message.content)`: scan the `content` property of the
message object's field list (nothing when absent, i.e. `undefined`). -/
def scanContentOf : List (String × JsVal) → List String
  | [] => []
  | (k, v) :: rest => if k = "content" then scan v else scanContentOf rest

/-- The `for (const k of Object.keys(node))` loop: scan every property
value except those under the keys `logprobs`, `tool`, `annotations`. -/
def scanFields : List (String × JsVal) → List String
  | [] => []
  | (k, v) :: rest =>
      (if k = "logprobs" ∨ k = "tool" ∨ k = "annotations" then [] else scan v) ++
      scanFields rest
end

/-- `scan(x)` where `x` may be `undefined` (a missing property). -/
def scanOpt : Option JsVal → List String
  | none => []
  | some v => scan v

/-- Drop leading whitespace characters. -/
def dropLeadingWs : List Char → List Char
  | [] => []
  | c :: cs => if c.isWhitespace then dropLeadingWs cs else c :: cs

/-- JavaScript `String.prototype.trim()`: strip whitespace from both ends
(the whitespace classes relevant here — space, tab, carriage return,
line feed — agree between JavaScript and `Char.isWhitespace`). -/
def jsTrim (s : String) : String :=
  ⟨((dropLeadingWs ((dropLeadingWs s.data.reverse).reverse)))⟩

/-- The deep-scan branch of the extractor:
`scan(anyResp.output); scan(anyResp.message); text = texts.join("\n").trim()`. -/
def deepText (resp : JsVal) : String :=
  jsTrim (String.intercalate "\n"
    (scanOpt (getField resp "output") ++ scanOpt (getField resp "message")))

/-- Full text extraction (dist/index.js lines 510-547):

```js
let text = "";
if (typeof anyResp.output_text === "string" && anyResp.output_text.trim()) {
  text = anyResp.output_text.trim();
} else {
  ... deep scan ...
  text = texts.join("\n").trim();
}
``` -/
def extractText (resp : JsVal) : String :=
  match getField resp "output_text" with
  | some (JsVal.str s) => if jsTrim s ≠ "" then jsTrim s else deepText resp
  | _ => deepText resp

/-- The extractor's outcome: `none` models the `E_EMPTY_MODEL_OUTPUT`
signal raised by `if (!text)`, `some t` the successful text result. -/
def extractOutcome (resp : JsVal) : Option String :=
  let t := extractText resp
  if t = "" then none else some t

/-! ## Caller-provided generation (`tryClientSampling`, lines 323-371)

The source probes three entry points in order — `ctx.sampling.createMessage`,
`ctx.session.createMessage`, `ctx.createMessage` — and returns `null` when
none exists.  When one exists it is awaited and its response is reduced by a
local `extract` helper to a string that is trimmed, with `return text || null`.
The caller context is modelled by the result each probed entry point would
yield: `none` when the entry point does not exist; `some r` when it exists,
where `r` abstracts the awaited-call-plus-`extract`-plus-trim outcome
(`none` for an exception — caught and mapped to `null` by the enclosing
`try` — or an empty trimmed text; `some t` with `t ≠ ""` for usable text). -/

structure Ctx where
  /-- `ctx.sampling.createMessage`, when it exists, abstracted by its
  extracted-and-trimmed text result. -/
  samplingCreateMessage : Option (Option String)
  /-- `ctx.session.createMessage`, likewise. -/
  sessionCreateMessage : Option (Option String)
  /-- `ctx.createMessage`, likewise. -/
  createMessage : Option (Option String)
  /-- whether `ctx.signal` exists and exposes `addEventListener`. -/
  hasAbortSignal : Bool

/-- `tryClientSampling`: first existing entry point wins; no entry point
at all yields `null` (`none`). -/
def tryClientSampling (ctx : Ctx) : Option String :=
  match ctx.samplingCreateMessage with
  | some r => r
  | none =>
    match ctx.sessionCreateMessage with
    | some r => r
    | none =>
      match ctx.createMessage with
      | some r => r
      | none => none

/-- JavaScript truthiness of a string-or-null value (`if (sampled)`). -/
def jsStrTruthy : Option String → Bool
  | none => false
  | some t => t != ""

/-! ## Retry/Backoff Executor (lines 375-396)

```js
function sleep(ms) { return new Promise((r) => setTimeout(r, ms)); }
function isRetryableStatus(status) {
  return status === 429 || (status !== undefined && status >= 500 && status < 600);
}
async function withRetries(fn, attempts = 3, baseDelay = 500) {
  let lastErr;
  for (let i = 0; i < attempts; i++) {
    try { return await fn(); }
    catch (err) {
      lastErr = err;
      const status = err?.status || err?.response?.status;
      if (!isRetryableStatus(status) || i === attempts - 1) throw err;
      const delay = baseDelay * Math.pow(2, i);
      log.warn(...);
      await sleep(delay);
    }
  }
  throw lastErr;
}
```

The executor is modelled with a virtual clock: invocations are
instantaneous (network latency abstracted away) and only backoff sleeps
advance time.  `withRetries` takes no cancellation token and `sleep`
takes only a duration — exactly as in the source, where the abort signal
is passed to the provider call inside `fn`, never to the executor or the
sleep — so the recorded timeline is by construction independent of any
cancellation instant. -/

/-- An error thrown by the wrapped operation, carrying the fields the
executor inspects (`err?.status`, `err?.response?.status`, `err?.message`). -/
structure JsError where
  status : Option Nat
  responseStatus : Option Nat
  message : String

/-- `err?.status || err?.response?.status`: the status used for retry
classification; a falsy `err.status` (absent or `0`) falls back to
`err.response?.status`. -/
def statusOf (e : JsError) : Option Nat :=
  match e.status with
  | some s => if s = 0 then e.responseStatus else some s
  | none => e.responseStatus

/-- `isRetryableStatus`: HTTP 429 or any status in `[500, 600)`. -/
def isRetryableStatus : Option Nat → Bool
  | some s => s = 429 ∨ (500 ≤ s ∧ s < 600)
  | none => false

/-- `sleep(ms)` resolves after `ms` milliseconds; it exposes no
cancellation hook, so the elapsed virtual time is always the full `ms`. -/
def sleep (ms : Nat) : Nat := ms

/-- Outcome of one invocation of the wrapped operation. -/
inductive CallOutcome (α : Type) where
  | success (a : α)
  | failure (e : JsError)

/-- What `withRetries` finally does: return a value, or throw the last
error (`none` models throwing the `undefined` initial `lastErr`, reachable
only with `attempts = 0`). -/
inductive RetryResult (α : Type) where
  | ok (a : α)
  | thrown (e : Option JsError)

/-- Observable trace of one `withRetries` run: final result, the virtual
start time of each invocation of the operation (in order), and each
backoff sleep as a (start, duration) pair. -/
structure RetryTrace (α : Type) where
  result : RetryResult α
  invTimes : List Nat
  sleeps : List (Nat × Nat)

/-- The `for` loop of `withRetries`.  `fuel` counts the iterations still
permitted, so `fuel + i = attempts` throughout; `now` is the virtual
clock. -/
def withRetriesGo (fn : Nat → CallOutcome α) (attempts baseDelay : Nat) :
    Nat → Nat → Option JsError → Nat → List Nat → List (Nat × Nat) → RetryTrace α
  | 0, _, lastErr, _, invTimes, sleeps =>
      -- loop exhausted: `throw lastErr`
      ⟨RetryResult.thrown lastErr, invTimes, sleeps⟩
  | fuel + 1, i, _, now, invTimes, sleeps =>
      match fn i with
      | CallOutcome.success a => ⟨RetryResult.ok a, invTimes ++ [now], sleeps⟩
      | CallOutcome.failure e =>
          if ¬ isRetryableStatus (statusOf e) ∨ i = attempts - 1 then
            ⟨RetryResult.thrown (some e), invTimes ++ [now], sleeps⟩
          else
            let delay := baseDelay * 2 ^ i
            withRetriesGo fn attempts baseDelay fuel (i + 1) (some e)
              (now + sleep delay) (invTimes ++ [now]) (sleeps ++ [(now, sleep delay)])

/-- `withRetries(fn, attempts, baseDelay)` (source defaults: 3 attempts,
500 ms base delay; the one call site passes them explicitly). -/
def withRetries (fn : Nat → CallOutcome α) (attempts baseDelay : Nat) : RetryTrace α :=
  withRetriesGo fn attempts baseDelay attempts 0 none 0 [] []

/-! ## Request schema (`askSchema`, lines 397-406)

```js
const askSchema = z.object({
  question: z.string().min(5, "question too short"),
  context: z.string().optional(),
  sections: z.array(z.enum(["summary","findings","plan","risks","verification"])).optional(),
  model: z.string().optional(),
  maxOutputTokens: z.number().int().positive().optional(),
  timeoutMs: z.number().int().positive().optional(),
  temperature: z.number().min(0).max(2).optional(),
}).strict();
```

Numeric fields are modelled as `Int` (the `.int()` constraint) and the
temperature as a rational standing in for a JavaScript float; `.strict()`
(rejection of unknown keys) is outside the model, which carries exactly
the declared fields. -/

structure RawArgs where
  question : String
  context : Option String
  sections : Option (List String)
  model : Option String
  maxOutputTokens : Option Int
  timeoutMs : Option Int
  temperature : Option ℚ

/-- The section enumeration of `askSchema`. -/
def sectionNames : List String := ["summary", "findings", "plan", "risks", "verification"]

/-- `askSchema.parse(rawArgs)` succeeds exactly when this holds; otherwise
the parse throws before any side effect of the handler. -/
def askSchemaOk (a : RawArgs) : Bool :=
  (5 ≤ a.question.length) &&
  (match a.sections with
   | none => true
   | some ss => ss.all fun s => sectionNames.contains s) &&
  (match a.maxOutputTokens with | none => true | some m => 0 < m) &&
  (match a.timeoutMs with | none => true | some t => 0 < t) &&
  (match a.temperature with | none => true | some t => 0 ≤ t ∧ t ≤ 2)

/-! ## Provider request construction (lines 488-502)

```js
const isReasoningModel = /^o3($|[-\/])/.test(model);
const req = {
  model,
  ...(isReasoningModel ? { reasoning: { effort: "medium" } } : {}),
  input: [
    { role: "system", content: system },
    { role: "user", content: user },
  ],
  max_output_tokens: safeMaxTokens,
};
if (!isReasoningModel && typeof temperature === "number") {
  req.temperature = temperature ?? DEFAULT_TEMPERATURE;
}
``` -/

/-- Character-list prefix test (used instead of `String.startsWith`,
whose byte-position loop does not reduce in the kernel). -/
def beginsWith : List Char → List Char → Bool
  | [], _ => true
  | _ :: _, [] => false
  | c :: cs, d :: ds => c = d && beginsWith cs ds

/-- `/^o3($|[-\/])/.test(model)`: the model name is `"o3"` or starts with
`"o3-"` or `"o3/"`. -/
def isReasoningModel (model : String) : Bool :=
  model = "o3" || beginsWith "o3-".data model.data || beginsWith "o3/".data model.data

/-- `DEFAULT_TEMPERATURE = 0.3` (line 290; dead in effect, since the
`??` fallback only runs when `temperature` is already a number). -/
def DEFAULT_TEMPERATURE : ℚ := 3 / 10

/-- The outbound request body sent to `client.responses.create`. -/
structure ProviderRequest where
  model : String
  /-- `reasoning: { effort: … }`, present only for reasoning-class models. -/
  reasoningEffort : Option String
  /-- the `input` array as (role, content) pairs. -/
  input : List (String × String)
  /-- `max_output_tokens`. -/
  maxOutputTokens : Int
  /-- `temperature`, present only when set by the trailing `if`. -/
  temperature : Option ℚ

def buildProviderRequest (model : String) (temperature : Option ℚ)
    (system user : String) (safeMaxTokens : Int) : ProviderRequest :=
  { model := model
    reasoningEffort := if isReasoningModel model then some "medium" else none
    input := [("system", system), ("user", user)]
    maxOutputTokens := safeMaxTokens
    temperature :=
      if ¬ isReasoningModel model ∧ (temperature.isSome) then
        some ((temperature.getD DEFAULT_TEMPERATURE))
      else none }

/-! ## Tool handler (`registerOracleTool`, lines 411-588)

The handler is modelled as a pure function from the process-wide
configuration, the caller context, the raw arguments and the provider's
behaviour (the outcome of each successive `client.responses.create`
invocation) to a trace of the observables the specification constrains:
the structured tool result, every outbound provider request, and the
lifecycle of the per-request timeout timer and external abort listener.
Progress/notification emission and the memoized client pool are
effect-free for every property claimed and are not modelled. -/

/-- Process-wide configuration read from the environment at startup. -/
structure Config where
  /-- `SAMPLING_MODE` (lower-cased `ORACLE_SAMPLING_MODE`, default `"auto"`). -/
  samplingMode : String
  /-- raw `process.env.OPENAI_API_KEY` (`none` = unset). -/
  apiKeyRaw : Option String
  /-- `MAX_TOKENS_CAP` (default 4096). -/
  maxTokensCap : Int
  /-- `DEFAULT_MODEL` (default `"o3"`). -/
  defaultModel : String

/-- A structured tool result: `{ isError?, content: [{ type: "text", text }] }`. -/
structure ToolResult where
  isError : Bool
  text : String

/-- `mcpErr(text, code)` (line 320): an error-flagged result whose text is
`` `${code}: ${text}` ``. -/
def mcpErr (text code : String) : ToolResult :=
  { isError := true, text := code ++ ": " ++ text }

/-- How one handler invocation ends: a structured result returned to the
transport, or a `zod` validation throw from `askSchema.parse`. -/
inductive HandlerOutcome where
  | result (r : ToolResult)
  | parseError

/-- Everything observable about one handler run. -/
structure HandlerTrace where
  outcome : HandlerOutcome
  /-- the body of every outbound `client.responses.create` network call,
  in order (one per `withRetries` invocation of the operation). -/
  providerRequests : List ProviderRequest
  /-- `setTimeout` reached (the timeout timer was armed). -/
  timerArmed : Bool
  /-- `clearTimeout(timer)` reached (the `finally` block ran). -/
  timerCleared : Bool
  /-- the `abort` listener was added to the external signal. -/
  listenerRegistered : Bool
  /-- `cancelUnsub()` removed that listener again. -/
  listenerRemoved : Bool

/-- The error text of the missing-credential exit (line 479). -/
def missingKeyMsg : String :=
  "Missing OPENAI_API_KEY in environment (required for server-side generation)"

/-- The error result of the `catch` block (lines 570-580): status-annotated
message and `E_OPENAI_HTTP_<status>` / `E_OPENAI_ERROR` code. -/
def openAIErrResult (e : Option JsError) : ToolResult :=
  let status := match e with | some err => statusOf err | none => none
  let msg := "OpenAI error" ++
    (match status with | some s => " (status " ++ toString s ++ ")" | none => "") ++
    ": " ++ (match e with | some err => err.message | none => "undefined")
  mcpErr msg (match status with | some s => "E_OPENAI_HTTP_" ++ toString s | none => "E_OPENAI_ERROR")

/-- A handler trace for the exits taken before the provider path's
abort controller exists (validation, client-sampling success,
`E_CLIENT_SAMPLING_UNAVAILABLE`): no provider call, no timer, no listener. -/
def preProviderTrace (o : HandlerOutcome) : HandlerTrace :=
  { outcome := o, providerRequests := [], timerArmed := false,
    timerCleared := false, listenerRegistered := false, listenerRemoved := false }

/-- The provider path (lines 457-587): register the abort listener when an
external signal is supplied, arm the timeout timer, check the credential,
then run the provider call under `withRetries` inside `try … finally`.
The missing-credential `return` (line 486) happens after the timer is
armed but before the `try`, so the `finally` cleanup does not run on
that exit. -/
def oracleProviderPath (cfg : Config) (ctx : Ctx) (req : ProviderRequest)
    (provider : Nat → CallOutcome JsVal) : HandlerTrace :=
  -- the abort listener (when ctx.signal exists) and the timeout timer
  -- are set up before the credential check
  if cfg.apiKeyRaw.map jsTrim = none ∨ cfg.apiKeyRaw.map jsTrim = some "" then
    -- `if (!apiKey) return mcpErr(msg, "E_MISSING_OPENAI_KEY")` — before the try/finally
    { outcome := HandlerOutcome.result (mcpErr missingKeyMsg "E_MISSING_OPENAI_KEY")
      providerRequests := []
      timerArmed := true, timerCleared := false
      listenerRegistered := ctx.hasAbortSignal, listenerRemoved := false }
  else
    { outcome :=
        match (withRetries provider 3 500).result with
        | RetryResult.ok resp =>
            match extractOutcome resp with
            | some text => HandlerOutcome.result { isError := false, text := text }
            | none => HandlerOutcome.result
                (mcpErr "Model returned no text content" "E_EMPTY_MODEL_OUTPUT")
        | RetryResult.thrown e => HandlerOutcome.result (openAIErrResult e)
      providerRequests := List.replicate (withRetries provider 3 500).invTimes.length req
      timerArmed := true, timerCleared := true
      listenerRegistered := ctx.hasAbortSignal, listenerRemoved := ctx.hasAbortSignal }

/-- `buildSectionsHeader(sections)` (line 372):
`sections.map(s => s.toUpperCase()).join(", ")`. -/
def buildSectionsHeader (sections : List String) : String :=
  String.intercalate ", " (sections.map String.toUpper)

/-- The `system` prompt string built by the handler (line 433). -/
def systemPromptFor (sections : List String) : String :=
  "You are a senior principal engineer (\"oracle\").\nReturn guidance in plain text with clearly delineated sections: "
    ++ buildSectionsHeader sections
    ++ ".\nKeep it concise and actionable. Provide commands in Verification."

/-- The `user` prompt string built by the handler (line 434). -/
def userPromptFor (question : String) (context : Option String) : String :=
  question ++
    (match context with
     | some c => "\n\nAdditional context:\n" ++ c
     | none => "")

/-- The provider request a given configuration and parsed argument set
give rise to, after applying the destructuring defaults (line 417) and
the token clamp `Math.min(Math.max(1, maxOutputTokens), MAX_TOKENS_CAP)`
(line 435). -/
def oracleRequestFor (cfg : Config) (raw : RawArgs) : ProviderRequest :=
  buildProviderRequest (raw.model.getD cfg.defaultModel) raw.temperature
    (systemPromptFor (raw.sections.getD ["summary", "findings", "plan"]))
    (userPromptFor raw.question raw.context)
    (min (max 1 (raw.maxOutputTokens.getD 1024)) cfg.maxTokensCap)

/-- The complete `oracle` tool handler.  (The source binds
`const sampled = await tryClientSampling(...)` once inside the
mode guard; the pure model may repeat the expression.) -/
def oracleToolHandler (cfg : Config) (ctx : Ctx) (raw : RawArgs)
    (provider : Nat → CallOutcome JsVal) : HandlerTrace :=
  if ¬ askSchemaOk raw then preProviderTrace HandlerOutcome.parseError
  else if cfg.samplingMode ≠ "off" then
    if jsStrTruthy (tryClientSampling ctx) then
      preProviderTrace (HandlerOutcome.result
        { isError := false, text := (tryClientSampling ctx).getD "" })
    else if cfg.samplingMode = "always" then
      preProviderTrace (HandlerOutcome.result
        (mcpErr "Client sampling requested but not available" "E_CLIENT_SAMPLING_UNAVAILABLE"))
    else oracleProviderPath cfg ctx (oracleRequestFor cfg raw) provider
  else oracleProviderPath cfg ctx (oracleRequestFor cfg raw) provider

/-! ## Concrete fixtures used to instantiate the theorems -/

/-- `{ output_text: "hello" }`. -/
def respHello : JsVal := JsVal.obj [("output_text", JsVal.str "hello")]

/-- `{ output: [{ role: "assistant", content: [{ type: "output_text", text: "hi" }] }] }`. -/
def respNested : JsVal :=
  JsVal.obj [("output",
    JsVal.arr [JsVal.obj [("role", JsVal.str "assistant"),
      ("content", JsVal.arr [JsVal.obj [("type", JsVal.str "output_text"),
        ("text", JsVal.str "hi")]])]])]

/-- A caller context with no sampling capability and no external signal. -/
def ctxBare : Ctx :=
  { samplingCreateMessage := none, sessionCreateMessage := none,
    createMessage := none, hasAbortSignal := false }

/-- A caller context with no sampling capability but an external abort signal. -/
def ctxWithSignal : Ctx := { ctxBare with hasAbortSignal := true }

/-- Mode `off`, credential configured, cap 4096, default model `o3`. -/
def cfgOffKeyed : Config :=
  { samplingMode := "off", apiKeyRaw := some "sk-test", maxTokensCap := 4096,
    defaultModel := "o3" }

/-- Mode `off`, `OPENAI_API_KEY` unset. -/
def cfgOffNoKey : Config := { cfgOffKeyed with apiKeyRaw := none }

/-- Mode `always`, credential configured. -/
def cfgAlways : Config := { cfgOffKeyed with samplingMode := "always" }

/-- A valid request carrying only a question. -/
def rawOk : RawArgs :=
  { question := "How should I scale this service?", context := none,
    sections := none, model := none, maxOutputTokens := none,
    timeoutMs := none, temperature := none }

/-- The same request asking for 100000 output tokens. -/
def raw100k : RawArgs := { rawOk with maxOutputTokens := some 100000 }

/-- The same request asking for 0 output tokens. -/
def rawZero : RawArgs := { rawOk with maxOutputTokens := some 0 }

/-- A provider that always succeeds with `{ output_text: "hello" }`. -/
def providerHello : Nat → CallOutcome JsVal :=
  fun _ => CallOutcome.success respHello

/-- An HTTP 429 error. -/
def err429 : JsError := { status := some 429, responseStatus := none, message := "rate limited" }

/-- An HTTP 400 error. -/
def err400 : JsError := { status := some 400, responseStatus := none, message := "bad request" }

/-- An error without any status. -/
def errNoStatus : JsError := { status := none, responseStatus := none, message := "socket hang up" }

/-- An operation failing twice with 429 and then succeeding. -/
def op429Twice : Nat → CallOutcome JsVal :=
  fun i => if i < 2 then CallOutcome.failure err429 else CallOutcome.success respHello

/-- An operation failing immediately with 400. -/
def op400 : Nat → CallOutcome JsVal := fun _ => CallOutcome.failure err400

/-- An operation failing immediately with an error that has no status. -/
def opNoStatus : Nat → CallOutcome JsVal := fun _ => CallOutcome.failure errNoStatus

/-- A valid request with a caller-supplied temperature under the default
(reasoning-class) model `o3`. -/
def rawO3Temp : RawArgs := { rawOk with temperature := some 1 }

/-- A valid request naming a non-reasoning model with a caller-supplied
temperature. -/
def rawGpt : RawArgs := { rawOk with model := some "gpt-4o-mini", temperature := some 1 }

deriving instance DecidableEq for JsError
deriving instance DecidableEq for ToolResult
deriving instance DecidableEq for HandlerOutcome
deriving instance DecidableEq for ProviderRequest
deriving instance DecidableEq for HandlerTrace

/-- No credential configured: `OPENAI_API_KEY` unset, or empty after
trimming (`!apiKey` with `apiKey = rawKey?.trim()`). -/
def apiKeyMissing (cfg : Config) : Bool :=
  match cfg.apiKeyRaw with
  | none => true
  | some s => jsTrim s = ""

/-- Whether control of the handler reaches the provider path: mode `off`
goes there directly; otherwise client sampling must have produced no
usable text and the mode must not be `always`. -/
def reachesProviderPath (cfg : Config) (ctx : Ctx) : Bool :=
  if cfg.samplingMode = "off" then true
  else if jsStrTruthy (tryClientSampling ctx) then false
  else cfg.samplingMode != "always"

/-- A throwaway request used as the explicit default of `List.getD`. -/
def noRequest : ProviderRequest :=
  { model := "", reasoningEffort := none, input := [], maxOutputTokens := 0,
    temperature := none }

/-- The inner assistant node of `respNested`. -/
def assistantNode : JsVal :=
  JsVal.obj [("role", JsVal.str "assistant"),
    ("content", JsVal.arr [JsVal.obj [("type", JsVal.str "output_text"),
      ("text", JsVal.str "hi")]])]

/-- `s` is a string value reachable from `v` along array elements and
object properties whose keys are not among the scan's skipped keys
(`logprobs`, `tool`, `annotations`). -/
inductive ReachableString : JsVal → String → Prop where
  | self (s : String) : ReachableString (JsVal.str s) s
  | inArr {x : JsVal} {xs : List JsVal} {s : String} :
      x ∈ xs → ReachableString x s → ReachableString (JsVal.arr xs) s
  | inObj {k : String} {v : JsVal} {fs : List (String × JsVal)} {s : String} :
      (k, v) ∈ fs → ¬ (k = "logprobs" ∨ k = "tool" ∨ k = "annotations") →
      ReachableString v s → ReachableString (JsVal.obj fs) s

/-! ## Theorems -/

/-- Claim C1, counterexample: on the nested assistant-content response the
extractor does not return `"hi"` — the deep scan pushes duplicated and
structural fragments, so the joined result differs from `"hi"`. -/
theorem claim_C1_counterexample : extractText respNested ≠ "hi" := by decide

/-- Claim C1, amended: `{ output_text: "hello" }` extracts to `"hello"`;
on the nested response the deep scan collects the text fragments in
traversal order (with the duplications of the generic text-field check,
the typed check, and the role-directed/generic-loop double scan), joins
them with newline separators and trims, and the extracted result is
`"hi\nhi\noutput_text\nhi\nassistant\nhi\nhi\noutput_text\nhi"`
rather than `"hi"`. -/
theorem claim_C1 :
    extractText respHello = "hello" ∧
    extractText respNested = "hi\nhi\noutput_text\nhi\nassistant\nhi\nhi\noutput_text\nhi" := by
  exact ⟨by decide, by decide⟩

/-- Claim C6: an operation failing twice with HTTP 429 and succeeding on
the third invocation makes `withRetries(op, 3, 500)` return the success
value after exactly 3 invocations (virtual start times 0, 500, 1500),
sleeping 500 ms before the second invocation and 1000 ms before the
third — cumulative backoff 1500 ms, no jitter. -/
theorem claim_C6 {α : Type} (fn : Nat → CallOutcome α) (e0 e1 : JsError) (v : α)
    (h0 : fn 0 = CallOutcome.failure e0) (hs0 : statusOf e0 = some 429)
    (h1 : fn 1 = CallOutcome.failure e1) (hs1 : statusOf e1 = some 429)
    (h2 : fn 2 = CallOutcome.success v) :
    withRetries fn 3 500 =
      ⟨RetryResult.ok v, [0, 500, 1500], [(0, 500), (500, 1000)]⟩ := by
  simp [withRetries, withRetriesGo, h0, h1, h2, hs0, hs1, isRetryableStatus, sleep]

/-- Claim C6, witness: the concrete operation `op429Twice` instantiates the
hypotheses and yields exactly that trace. -/
theorem claim_C6_witness :
    withRetries op429Twice 3 500 =
      ⟨RetryResult.ok respHello, [0, 500, 1500], [(0, 500), (500, 1000)]⟩ :=
  claim_C6 op429Twice err429 err429 respHello rfl rfl rfl rfl rfl

/-- Claim C7: an operation whose first failure is not retryable (status
outside {429} ∪ [500, 600), or no status at all) makes `withRetries`
propagate the failure after exactly 1 invocation with no backoff sleep. -/
theorem claim_C7 {α : Type} (fn : Nat → CallOutcome α) (e : JsError)
    (attempts baseDelay : Nat) (hpos : 0 < attempts)
    (h0 : fn 0 = CallOutcome.failure e)
    (hnr : isRetryableStatus (statusOf e) = false) :
    withRetries fn attempts baseDelay = ⟨RetryResult.thrown (some e), [0], []⟩ := by
  obtain ⟨a, rfl⟩ : ∃ a, attempts = a + 1 := ⟨attempts - 1, (Nat.succ_pred_eq_of_pos hpos).symm⟩
  simp [withRetries, withRetriesGo, h0, hnr]

/-- Claim C7, witness: a 400 failure and a status-less failure each
propagate after one invocation with no sleep. -/
theorem claim_C7_witness :
    withRetries op400 3 500 = ⟨RetryResult.thrown (some err400), [0], []⟩ ∧
    withRetries opNoStatus 3 500 = ⟨RetryResult.thrown (some errNoStatus), [0], []⟩ :=
  ⟨claim_C7 op400 err400 3 500 (by decide) rfl (by decide),
   claim_C7 opNoStatus errNoStatus 3 500 (by decide) rfl (by decide)⟩

/-- A missing credential ends the provider path before the `try` block:
the missing-key error is returned, no provider request goes out, and
the already-armed timer and already-registered listener are left in
place. -/
theorem oracleProviderPath_missing_key (cfg : Config) (ctx : Ctx)
    (req : ProviderRequest) (provider : Nat → CallOutcome JsVal)
    (hkey : apiKeyMissing cfg = true) :
    oracleProviderPath cfg ctx req provider =
      { outcome := HandlerOutcome.result (mcpErr missingKeyMsg "E_MISSING_OPENAI_KEY")
        providerRequests := []
        timerArmed := true, timerCleared := false
        listenerRegistered := ctx.hasAbortSignal, listenerRemoved := false } := by
  have h : cfg.apiKeyRaw.map jsTrim = none ∨ cfg.apiKeyRaw.map jsTrim = some "" := by
    unfold apiKeyMissing at hkey
    cases hc : cfg.apiKeyRaw with
    | none => exact Or.inl (by simp)
    | some s =>
      rw [hc] at hkey
      simp only [decide_eq_true_eq] at hkey
      exact Or.inr (by simp [hkey])
  unfold oracleProviderPath
  simp only [h, if_pos]

/-- When control reaches the provider path (per `reachesProviderPath`),
the handler's trace is that of `oracleProviderPath` on the request built
from the configuration and arguments. -/
theorem oracleToolHandler_provider_path (cfg : Config) (ctx : Ctx) (raw : RawArgs)
    (provider : Nat → CallOutcome JsVal)
    (hv : askSchemaOk raw = true) (hreach : reachesProviderPath cfg ctx = true) :
    oracleToolHandler cfg ctx raw provider =
      oracleProviderPath cfg ctx (oracleRequestFor cfg raw) provider := by
  unfold oracleToolHandler
  unfold reachesProviderPath at hreach
  by_cases hoff : cfg.samplingMode = "off"
  · simp [hv, hoff]
  · rw [if_neg hoff] at hreach
    by_cases hsamp : jsStrTruthy (tryClientSampling ctx) = true
    · rw [if_pos hsamp] at hreach; exact absurd hreach (by simp)
    · rw [if_neg (by simp [hsamp] : ¬ jsStrTruthy (tryClientSampling ctx) = true)] at hreach
      have halw : ¬ cfg.samplingMode = "always" := by
        intro hcontra
        rw [hcontra] at hreach
        simp at hreach
      simp [hv, hoff, hsamp, halw]

/-- Claim C2 (code bug): a request that enters the provider path with an
external abort signal supplied but no credential configured arms the
timeout timer and registers the abort listener, then exits with
`E_MISSING_OPENAI_KEY` without clearing the timer or removing the
listener — the missing-credential `return` precedes the `try/finally`.
On the other provider-path exits (here: success) the `finally` does
clear the timer and remove the listener. -/
theorem claim_C2 :
    oracleToolHandler cfgOffNoKey ctxWithSignal rawOk providerHello =
      { outcome := HandlerOutcome.result (mcpErr missingKeyMsg "E_MISSING_OPENAI_KEY")
        providerRequests := []
        timerArmed := true, timerCleared := false
        listenerRegistered := true, listenerRemoved := false } ∧
    ((oracleToolHandler cfgOffKeyed ctxWithSignal rawOk providerHello).timerCleared = true ∧
     (oracleToolHandler cfgOffKeyed ctxWithSignal rawOk providerHello).listenerRemoved = true ∧
     (oracleToolHandler cfgOffKeyed ctxWithSignal rawOk providerHello).outcome =
       HandlerOutcome.result { isError := false, text := "hello" }) := by
  exact ⟨by decide, by decide, by decide, by decide⟩

/-- Claim C4: whenever control reaches the provider path with no usable
credential (unset or blank after trimming), the handler returns the
structured missing-provider-key error — `isError` flag plus message,
never a raised exception — and sends no provider request. -/
theorem claim_C4 (cfg : Config) (ctx : Ctx) (raw : RawArgs)
    (provider : Nat → CallOutcome JsVal)
    (hv : askSchemaOk raw = true)
    (hkey : apiKeyMissing cfg = true)
    (hreach : reachesProviderPath cfg ctx = true) :
    (oracleToolHandler cfg ctx raw provider).outcome =
      HandlerOutcome.result (mcpErr missingKeyMsg "E_MISSING_OPENAI_KEY") ∧
    (oracleToolHandler cfg ctx raw provider).providerRequests = [] := by
  rw [oracleToolHandler_provider_path cfg ctx raw provider hv hreach,
    oracleProviderPath_missing_key cfg ctx _ provider hkey]
  exact ⟨rfl, rfl⟩

/-- Claim C4, witness: mode `off` with `OPENAI_API_KEY` unset yields the
structured `E_MISSING_OPENAI_KEY` error and no provider call. -/
theorem claim_C4_witness :
    (oracleToolHandler cfgOffNoKey ctxBare rawOk providerHello).outcome =
      HandlerOutcome.result (mcpErr missingKeyMsg "E_MISSING_OPENAI_KEY") ∧
    (oracleToolHandler cfgOffNoKey ctxBare rawOk providerHello).providerRequests = [] :=
  claim_C4 cfgOffNoKey ctxBare rawOk providerHello (by decide) (by decide) (by decide)

/-- Claim C8: in mode `always`, when none of the probed `createMessage`
entry points exists, the handler returns exactly the structured
`E_CLIENT_SAMPLING_UNAVAILABLE` error and no provider request is made. -/
theorem claim_C8 (cfg : Config) (ctx : Ctx) (raw : RawArgs)
    (provider : Nat → CallOutcome JsVal)
    (hv : askSchemaOk raw = true)
    (hmode : cfg.samplingMode = "always")
    (h1 : ctx.samplingCreateMessage = none)
    (h2 : ctx.sessionCreateMessage = none)
    (h3 : ctx.createMessage = none) :
    (oracleToolHandler cfg ctx raw provider).outcome =
      HandlerOutcome.result
        (mcpErr "Client sampling requested but not available" "E_CLIENT_SAMPLING_UNAVAILABLE") ∧
    (oracleToolHandler cfg ctx raw provider).providerRequests = [] := by
  have hs : tryClientSampling ctx = none := by
    unfold tryClientSampling
    rw [h1, h2, h3]
  unfold oracleToolHandler
  simp [hv, hmode, hs, jsStrTruthy, preProviderTrace]

/-- Claim C8, witness: mode `always` with a bare caller context yields
exactly the `E_CLIENT_SAMPLING_UNAVAILABLE` error and no provider call. -/
theorem claim_C8_witness :
    (oracleToolHandler cfgAlways ctxBare rawOk providerHello).outcome =
      HandlerOutcome.result
        (mcpErr "Client sampling requested but not available" "E_CLIENT_SAMPLING_UNAVAILABLE") ∧
    (oracleToolHandler cfgAlways ctxBare rawOk providerHello).providerRequests = [] :=
  claim_C8 cfgAlways ctxBare rawOk providerHello (by decide) rfl rfl rfl rfl

/-- Every outbound request of a provider-path run is one copy of the
request the path was entered with; otherwise no request goes out. -/
theorem oracleProviderPath_requests (cfg : Config) (ctx : Ctx)
    (req : ProviderRequest) (provider : Nat → CallOutcome JsVal) :
    (oracleProviderPath cfg ctx req provider).providerRequests = [] ∨
    (oracleProviderPath cfg ctx req provider).providerRequests =
      List.replicate (withRetries provider 3 500).invTimes.length req := by
  unfold oracleProviderPath
  split_ifs
  · exact Or.inl rfl
  · exact Or.inr rfl

/-- Every outbound request of a handler run is one copy of
`oracleRequestFor cfg raw`; otherwise no request goes out. -/
theorem oracleToolHandler_requests (cfg : Config) (ctx : Ctx) (raw : RawArgs)
    (provider : Nat → CallOutcome JsVal) :
    (oracleToolHandler cfg ctx raw provider).providerRequests = [] ∨
    (oracleToolHandler cfg ctx raw provider).providerRequests =
      List.replicate (withRetries provider 3 500).invTimes.length
        (oracleRequestFor cfg raw) := by
  unfold oracleToolHandler
  split_ifs <;>
    first
      | exact Or.inl rfl
      | exact oracleProviderPath_requests cfg ctx (oracleRequestFor cfg raw) provider

/-- Claim C5, amended: every outbound provider request of a validated
request carries `min(max(1, maxOutputTokens), tokenCap)` output tokens
(with the source's default of 1024 when the field is absent). -/
theorem claim_C5 (cfg : Config) (ctx : Ctx) (raw : RawArgs)
    (provider : Nat → CallOutcome JsVal)
    (_hv : askSchemaOk raw = true) :
    ((oracleToolHandler cfg ctx raw provider).providerRequests.all
      fun r => r.maxOutputTokens ==
        min (max 1 (raw.maxOutputTokens.getD 1024)) cfg.maxTokensCap) = true := by
  rcases oracleToolHandler_requests cfg ctx raw provider with h | h <;> rw [h]
  · rfl
  · rw [List.all_eq_true]
    intro r hr
    rw [List.eq_of_mem_replicate hr]
    simp [oracleRequestFor, buildProviderRequest]

/-- Claim C5, witness: a validated request with `maxOutputTokens = 100000`
under cap 4096 carries exactly 4096 on its (single) outbound request. -/
theorem claim_C5_witness :
    askSchemaOk raw100k = true ∧
    ((oracleToolHandler cfgOffKeyed ctxBare raw100k providerHello).providerRequests.all
      fun r => r.maxOutputTokens == (4096 : Int)) = true ∧
    (oracleToolHandler cfgOffKeyed ctxBare raw100k providerHello).providerRequests.length = 1 :=
  ⟨by decide, claim_C5 cfgOffKeyed ctxBare raw100k providerHello (by decide), by decide⟩

/-- Claim C5, counterexample: a request with `maxOutputTokens = 0` is
rejected by `askSchema` (`z.number().int().positive()`), so it never
produces an outbound provider request at all — in particular none
carrying 1 token. -/
theorem claim_C5_counterexample :
    askSchemaOk rawZero = false ∧
    (oracleToolHandler cfgOffKeyed ctxBare rawZero providerHello).outcome =
      HandlerOutcome.parseError ∧
    (oracleToolHandler cfgOffKeyed ctxBare rawZero providerHello).providerRequests = [] :=
  ⟨by decide, by decide, by decide⟩

/-- Claim C9: no outbound provider request ever carries both a temperature
and a reasoning-effort parameter; a reasoning-class model gets
`reasoning.effort = "medium"` and no temperature (even when the caller
supplied one), a non-reasoning model gets the caller's temperature
exactly when supplied and never a reasoning effort.  The two concrete
runs show both shapes actually occurring: under the default model `o3`
a supplied temperature is dropped in favour of the effort parameter,
and under `gpt-4o-mini` the supplied temperature is carried with no
effort parameter. -/
theorem claim_C9 :
    (∀ (cfg : Config) (ctx : Ctx) (raw : RawArgs)
      (provider : Nat → CallOutcome JsVal),
      ((oracleToolHandler cfg ctx raw provider).providerRequests.all
        fun r =>
          !(r.temperature.isSome && r.reasoningEffort.isSome) &&
          (r.reasoningEffort ==
            (if isReasoningModel (raw.model.getD cfg.defaultModel) then some "medium" else none)) &&
          (r.temperature ==
            (if isReasoningModel (raw.model.getD cfg.defaultModel) then none
             else raw.temperature))) = true) ∧
    ((oracleToolHandler cfgOffKeyed ctxBare rawO3Temp providerHello).providerRequests.map
      fun r => (r.reasoningEffort, r.temperature)) = [(some "medium", none)] ∧
    ((oracleToolHandler cfgOffKeyed ctxBare rawGpt providerHello).providerRequests.map
      fun r => (r.reasoningEffort, r.temperature)) = [(none, some 1)] := by
  refine ⟨fun cfg ctx raw provider => ?_, rfl, rfl⟩
  rcases oracleToolHandler_requests cfg ctx raw provider with h | h <;> rw [h]
  · rfl
  · rw [List.all_eq_true]
    intro r hr
    rw [List.eq_of_mem_replicate hr]
    by_cases hm : isReasoningModel (raw.model.getD cfg.defaultModel) <;>
      cases htemp : raw.temperature <;>
        simp [oracleRequestFor, buildProviderRequest, hm, htemp]

/-- The retry loop only ever appends to its invocation-time and sleep
accumulators, and — when at least one iteration remains — the next
recorded invocation time is the current virtual clock. -/
theorem withRetriesGo_extends {α : Type} (fn : Nat → CallOutcome α)
    (attempts baseDelay : Nat) :
    ∀ (fuel i : Nat) (lastErr : Option JsError) (now : Nat)
      (invTimes : List Nat) (sleeps : List (Nat × Nat)),
      ∃ restI restS,
        (withRetriesGo fn attempts baseDelay fuel i lastErr now invTimes sleeps).invTimes
            = invTimes ++ restI ∧
        (withRetriesGo fn attempts baseDelay fuel i lastErr now invTimes sleeps).sleeps
            = sleeps ++ restS ∧
        (0 < fuel → restI.head? = some now) := by
  intro fuel
  induction fuel with
  | zero =>
      intro i lastErr now invTimes sleeps
      exact ⟨[], [], by simp [withRetriesGo], by simp [withRetriesGo], by omega⟩
  | succ n ih =>
      intro i lastErr now invTimes sleeps
      unfold withRetriesGo
      cases hfn : fn i with
      | success a =>
          exact ⟨[now], [], by simp, by simp, fun _ => rfl⟩
      | failure e =>
          dsimp only
          by_cases hc : ¬ isRetryableStatus (statusOf e) = true ∨ i = attempts - 1
          · rw [if_pos hc]
            exact ⟨[now], [], by simp, by simp, fun _ => rfl⟩
          · rw [if_neg hc]
            obtain ⟨rI, rS, hI, hS, _⟩ :=
              ih (i + 1) (some e) (now + sleep (baseDelay * 2 ^ i))
                (invTimes ++ [now]) (sleeps ++ [(now, sleep (baseDelay * 2 ^ i))])
            exact ⟨now :: rI, (now, sleep (baseDelay * 2 ^ i)) :: rS,
              by simpa using hI, by simpa using hS, fun _ => rfl⟩

/-- Claim C3, amended: the backoff sleep is never interrupted.  After a
first retryable failure the executor sleeps the full
`baseDelay * 2 ^ 0` milliseconds and then invokes the operation again:
the second invocation is recorded exactly one whole sleep after the
first, and the full-length sleep interval `(0, sleep (baseDelay * 2 ^ 0))`
appears in the trace.  Neither `withRetries` nor `sleep` takes the
request's cancellation token (the abort signal is consumed only inside
the provider call), so a token fired during the sleep changes nothing
in this timeline. -/
theorem claim_C3 {α : Type} (fn : Nat → CallOutcome α) (e : JsError)
    (attempts baseDelay : Nat) (h2 : 2 ≤ attempts)
    (h0 : fn 0 = CallOutcome.failure e)
    (hr : isRetryableStatus (statusOf e) = true) :
    (withRetries fn attempts baseDelay).invTimes.take 2
        = [0, sleep (baseDelay * 2 ^ 0)] ∧
    (0, sleep (baseDelay * 2 ^ 0)) ∈ (withRetries fn attempts baseDelay).sleeps := by
  obtain ⟨a, rfl⟩ : ∃ a, attempts = a + 2 := ⟨attempts - 2, by omega⟩
  unfold withRetries
  show (withRetriesGo fn (a + 2) baseDelay (a + 1 + 1) 0 none 0 [] []).invTimes.take 2
      = _ ∧ _
  unfold withRetriesGo
  rw [h0]
  dsimp only
  rw [if_neg (by simp [hr])]
  obtain ⟨rI, rS, hI, hS, hhead⟩ :=
    withRetriesGo_extends fn (a + 2) baseDelay (a + 1) 1 (some e)
      (0 + sleep (baseDelay * 2 ^ 0)) ([] ++ [0]) ([] ++ [(0, sleep (baseDelay * 2 ^ 0))])
  rw [hI, hS]
  obtain ⟨rI', hrI⟩ : ∃ rI', rI = (0 + sleep (baseDelay * 2 ^ 0)) :: rI' := by
    have h := hhead (by omega)
    cases rI with
    | nil => simp at h
    | cons x xs =>
        simp only [List.head?_cons, Option.some.injEq] at h
        exact ⟨xs, by rw [h]⟩
  constructor
  · rw [hrI]
    simp [sleep]
  · simp

/-- Claim C3, counterexample: run `withRetries` on an operation whose
first two invocations fail with HTTP 429.  The first backoff sleep is
the interval from 0 to 500 ms; a cancellation token firing at 100 ms
falls strictly inside it, yet the executor's timeline — which does not
depend on any token — completes that sleep in full and invokes the
operation again at 500 ms (and at 1500 ms): the executor neither aborts
the sleep at 100 ms nor stops invoking the operation after that
instant. -/
theorem claim_C3_counterexample :
    ((0, 500) ∈ (withRetries op429Twice 3 500).sleeps ∧ 0 ≤ 100 ∧ 100 < 0 + 500) ∧
    500 ∈ (withRetries op429Twice 3 500).invTimes ∧
    1500 ∈ (withRetries op429Twice 3 500).invTimes ∧ 100 < 500 := by
  exact ⟨⟨by decide, by decide, by decide⟩, by decide, by decide, by decide⟩

/-- Claim C3, witness: the amended theorem instantiated on `op429Twice`
with 3 attempts and 500 ms base delay. -/
theorem claim_C3_witness :
    (withRetries op429Twice 3 500).invTimes.take 2 = [0, sleep (500 * 2 ^ 0)] ∧
    (0, sleep (500 * 2 ^ 0)) ∈ (withRetries op429Twice 3 500).sleeps :=
  claim_C3 op429Twice err429 3 500 (by decide) rfl (by decide)

/-- Unfolding of `scan` on an object node. -/
theorem scan_obj (fs : List (String × JsVal)) :
    scan (JsVal.obj fs) =
      (match lookupStr fs "text" with
       | some t => [t]
       | none => []) ++
      (match lookupField fs "type", lookupStr fs "text" with
       | some (JsVal.str "output_text"), some t => [t]
       | _, _ => []) ++
      (match lookupField fs "role" with
       | some (JsVal.str "assistant") => scanAssistantContent fs
       | _ => []) ++
      scanMessageField fs ++
      scanFields fs := rfl

/-- Unfolding of `scan` on an array node. -/
theorem scan_arr (xs : List JsVal) : scan (JsVal.arr xs) = scanElems xs := rfl

/-- A fragment found while scanning one element of an array is in the
scan of the whole array. -/
theorem mem_scanElems {x : JsVal} {xs : List JsVal} {s : String}
    (hx : x ∈ xs) (hs : s ∈ scan x) : s ∈ scanElems xs := by
  induction xs with
  | nil => cases hx
  | cons y ys ih =>
      unfold scanElems
      rcases List.mem_cons.mp hx with rfl | hmem
      · exact List.mem_append_left _ hs
      · exact List.mem_append_right _ (ih hmem)

/-- A fragment found while scanning the value of a non-skipped property
is in the `Object.keys` loop's output for the whole field list. -/
theorem mem_scanFields {k : String} {v : JsVal} {fs : List (String × JsVal)}
    {s : String} (hmem : (k, v) ∈ fs)
    (hk : ¬ (k = "logprobs" ∨ k = "tool" ∨ k = "annotations"))
    (hs : s ∈ scan v) : s ∈ scanFields fs := by
  induction fs with
  | nil => cases hmem
  | cons p rest ih =>
      obtain ⟨k', v'⟩ := p
      unfold scanFields
      rcases List.mem_cons.mp hmem with heq | htail
      · obtain ⟨rfl, rfl⟩ := Prod.mk.injEq .. ▸ heq
        rw [if_neg hk]
        exact List.mem_append_left _ hs
      · exact List.mem_append_right _ (ih htail)

/-- Claim C10, amended: the deep scan over-collects.
(1) Every nonempty string value reachable through array elements and
object properties outside the skipped keys is collected as a fragment —
including structural strings such as role values and type tags.
(2) For a node of type `output_text` with a string `text` field, that
text is collected at least twice (generic text-field check plus typed
check; the keys loop makes a nonempty text a third copy).
(3) Assistant content is scanned twice — once by the role-directed
branch and once by the generic keys loop — with the structural string
`"assistant"` collected between the two copies.
(4) Concretely, the assistant node of the nested fixture scans to a
list with four copies of `"hi"` plus the structural fragments
`"output_text"` and `"assistant"`. -/
theorem claim_C10 :
    (∀ (v : JsVal) (s : String), ReachableString v s → s ≠ "" → s ∈ scan v) ∧
    (∀ (fs : List (String × JsVal)) (t : String),
      lookupStr fs "text" = some t →
      lookupField fs "type" = some (JsVal.str "output_text") →
      2 ≤ (scan (JsVal.obj fs)).count t) ∧
    (∀ c : JsVal, jsTruthy c = true →
      scan (JsVal.obj [("role", JsVal.str "assistant"), ("content", c)]) =
        scan c ++ "assistant" :: scan c) ∧
    scan assistantNode =
      ["hi", "hi", "output_text", "hi", "assistant", "hi", "hi", "output_text", "hi"] := by
  refine ⟨?_, ?_, ?_, by decide⟩
  · intro v s h hne
    induction h with
    | self t => simp [scan, hne]
    | inArr hx _ ih => exact scan_arr _ ▸ mem_scanElems hx (ih hne)
    | inObj hmem hk _ ih =>
        rw [scan_obj]
        exact List.mem_append_right _ (mem_scanFields hmem hk (ih hne))
  · intro fs t h1 h2
    rw [scan_obj, h1, h2]
    simp [List.count_append]
  · intro c hc
    simp [scan_obj, scanAssistantContent, scanMessageField, scanFields,
      lookupField, lookupStr, scan, hc]

/-- Claim C10, counterexample to the claim as stated: the empty string is
a string value reachable through the (non-skipped) key `foo`, yet the
scan does not collect it — `scan("")` returns at the falsy guard before
pushing, so only nonempty reachable strings are collected. -/
theorem claim_C10_counterexample :
    ReachableString (JsVal.obj [("foo", JsVal.str "")]) "" ∧
    "" ∉ scan (JsVal.obj [("foo", JsVal.str "")]) :=
  ⟨ReachableString.inObj (List.mem_singleton_self _) (by decide)
      (ReachableString.self ""), by decide⟩

/-- Claim C10, witness: the role string of an assistant node is itself
collected; the typed `output_text` node's text is collected at least
twice; an assistant node with string content `"x"` scans to
`["x", "assistant", "x"]`. -/
theorem claim_C10_witness :
    "assistant" ∈ scan (JsVal.obj [("role", JsVal.str "assistant")]) ∧
    2 ≤ (scan (JsVal.obj [("type", JsVal.str "output_text"),
          ("text", JsVal.str "hi")])).count "hi" ∧
    scan (JsVal.obj [("role", JsVal.str "assistant"), ("content", JsVal.str "x")]) =
      ["x", "assistant", "x"] :=
  ⟨claim_C10.1 _ "assistant"
      (ReachableString.inObj (List.mem_singleton_self _) (by decide)
        (ReachableString.self _)) (by decide),
   claim_C10.2.1 _ "hi" rfl rfl,
   by rw [claim_C10.2.2.1 (JsVal.str "x") rfl]; decide⟩

end OracleMcp
